import Mathlib

/- Verification of the grid layout engine of rusty-panther (src/structure.rs).

The shallow embedding below translates the Rust code directly:
  * u8 and u16 values are represented as Nat; operations that wrap in Rust
    (release-mode two's-complement arithmetic) carry an explicit `% 256`.
  * Integer division by zero and out-of-bounds Vec indexing always panic in
    Rust; such a call is modelled by `Outcome.panicked`, a normal return by
    `Outcome.ok`.  The source defines no typed error channel anywhere.
  * The f32 arithmetic of percent_to_char_width / percent_to_char_height is
    modelled exactly: `roundF32` is correctly rounded IEEE-754 binary32
    rounding (round to nearest, ties to even) on exact rationals, valid for
    zero and the positive normal range these functions use. -/

/-- Result of calling a Rust function: a returned value, or a panic
(process abort / unwind — observable only as an abort, never as a value). -/
inductive Outcome (α : Type) where
  | ok : α → Outcome α
  | panicked : Outcome α
deriving DecidableEq, Repr

/-- One grid cell.  In the source, `GridColumn(u8, bool)` and
`GridRow(u8, bool)` are two structurally identical tuple structs
(share percentage, priority flag); both are modelled by this one type. -/
structure GridCell where
  share : Nat
  pinned : Bool
deriving DecidableEq, Repr

instance : Inhabited GridCell := ⟨⟨0, false⟩⟩

/-- The `Grid` struct of src/structure.rs. -/
structure Grid where
  columns : List GridCell
  rows : List GridCell
  height_ : Nat
  height_chars : Nat
  width_ : Nat
  width_chars : Nat
deriving DecidableEq, Repr

/-- Whether 2 ^ e ≤ num / den holds (den > 0), as an integer comparison. -/
def pow2LE (e : Int) (num den : Nat) : Bool :=
  if 0 ≤ e then den * 2 ^ e.toNat ≤ num else den ≤ num * 2 ^ (-e).toNat

/-- Binary exponent of the positive rational num / den: the largest e in the
window [-30, 30] with 2 ^ e ≤ num / den (only used on values well inside
that window). -/
def binExpF (num den : Nat) : Int :=
  (List.range 61).foldl
    (fun acc k => if pow2LE ((k : Int) - 30) num den then (k : Int) - 30 else acc)
    (-30)

/-- Correctly rounded IEEE-754 binary32 value of the nonnegative rational
num / den (round to nearest, ties broken to the even mantissa), returned as
an exact fraction whose denominator is a power of two.  Valid for zero and
for positive values in the normal range; models the result of a Rust f32
division or multiplication with exact operands. -/
def roundF32 (num den : Nat) : Nat × Nat :=
  if num = 0 then (0, 1)
  else
    let e := binExpF num den
    let scaled : Nat × Nat :=
      if e ≤ 23 then (num * 2 ^ (23 - e).toNat, den)
      else (num, den * 2 ^ (e - 23).toNat)
    let n := scaled.1 / scaled.2
    let r := scaled.1 % scaled.2
    let m :=
      if 2 * r < scaled.2 then n
      else if scaled.2 < 2 * r then n + 1
      else if n % 2 = 0 then n else n + 1
    if 23 ≤ e then (m * 2 ^ (e - 23).toNat, 1) else (m, 2 ^ (23 - e).toNat)

/-- Rust `as u16` applied to a (finite, here nonnegative) f32 value given as
an exact fraction: truncation toward zero, saturating at 65535. -/
def rustCastU16 (num den : Nat) : Nat :=
  min 65535 (num / den)

/-- u8 wrapping subtraction (release-mode `-=` on u8). -/
def wsub (a b : Nat) : Nat := (a % 256 + 256 - b % 256) % 256

/-- The first loop of each half of Grid::recalculate: starting from 100,
subtract every pinned cell's share (u8 arithmetic). -/
def pinnedSubFold (cells : List GridCell) : Nat :=
  cells.foldl (fun acc c => if c.pinned then wsub acc c.share else acc) 100

/-- The flex-cell count kept by Grid::recalculate: it starts from the vector
length and decrements once per pinned cell, so it equals the number of
non-pinned cells. -/
def flexCount (cells : List GridCell) : Nat :=
  cells.countP fun c => !c.pinned

/-- Sum of the shares of the pinned cells of an axis. -/
def pinnedSum (cells : List GridCell) : Nat :=
  ((cells.filter fun c => c.pinned).map fun c => c.share).sum

/-- Sum of the shares of all cells of an axis. -/
def sumShares (cells : List GridCell) : Nat :=
  (cells.map fun c => c.share).sum

/-- One axis half of Grid::recalculate (source lines 184-202 for rows and
212-230 for columns: the two inlined loops perform the identical computation
on their own vector).  The source divides by `rows as u8`, i.e. by the flex
count truncated mod 256; a zero divisor is a Rust panic.  Otherwise every
non-pinned cell receives the floored equal share and pinned cells are kept. -/
def recalcAxis (cells : List GridCell) : Outcome (List GridCell) :=
  if flexCount cells % 256 = 0 then .panicked
  else .ok (cells.map fun c =>
    if c.pinned then c
    else ⟨pinnedSubFold cells / (flexCount cells % 256), false⟩)

namespace Grid

/-- Grid::recalculate: the rows pass runs first, then the columns pass. -/
def recalculate (g : Grid) : Outcome Grid :=
  match recalcAxis g.rows with
  | .panicked => .panicked
  | .ok rows' =>
    match recalcAxis g.columns with
    | .panicked => .panicked
    | .ok columns' => .ok { g with rows := rows', columns := columns' }

/-- Grid::column_configure: `self.columns[col] = GridColumn(percent, true)`
(an out-of-bounds index is a panic) followed by recalculate. -/
def column_configure (g : Grid) (col percent : Nat) : Outcome Grid :=
  if col < g.columns.length then
    recalculate { g with columns := g.columns.set col ⟨percent, true⟩ }
  else .panicked

/-- Grid::row_configure: `self.rows[row] = GridRow(percent, true)`
(an out-of-bounds index is a panic) followed by recalculate. -/
def row_configure (g : Grid) (row percent : Nat) : Outcome Grid :=
  if row < g.rows.length then
    recalculate { g with rows := g.rows.set row ⟨percent, true⟩ }
  else .panicked

/-- Grid::percent_to_char_width:
`((self.width_chars as f32 / 100f32) * percent as f32) as u16`, then the
result is clamped up to 1 when it is 0. -/
def percent_to_char_width (g : Grid) (percent : Nat) : Nat :=
  let q := roundF32 g.width_chars 100
  let pr := roundF32 (q.1 * percent) q.2
  let i := rustCastU16 pr.1 pr.2
  if i = 0 then 1 else i

/-- Grid::percent_to_char_height, same computation over height_chars. -/
def percent_to_char_height (g : Grid) (percent : Nat) : Nat :=
  let q := roundF32 g.height_chars 100
  let pr := roundF32 (q.1 * percent) q.2
  let i := rustCastU16 pr.1 pr.2
  if i = 0 then 1 else i

/-- Grid::get_column_chars: indexes the column vector directly (panic when
out of bounds) and converts that share to characters. -/
def get_column_chars (g : Grid) (column : Nat) : Outcome Nat :=
  match g.columns[column]? with
  | some c => .ok (g.percent_to_char_width c.share)
  | none => .panicked

/-- Grid::get_row_chars: indexes the row vector directly (panic when out of
bounds) and converts that share to characters. -/
def get_row_chars (g : Grid) (row : Nat) : Outcome Nat :=
  match g.rows[row]? with
  | some c => .ok (g.percent_to_char_height c.share)
  | none => .panicked

end Grid

/-- The column (or row) loop of Grid::get_placement_percent: `for c in
1..=idx` adds `cells[c].share` (u8 wrapping addition) for every c > 1, so it
reads vector positions 2..=idx and panics out-of-bounds as soon as one of
those positions reaches the vector length. -/
def placementOffset (cells : List GridCell) (idx : Nat) : Outcome Nat :=
  if 2 ≤ idx ∧ cells.length ≤ idx then .panicked
  else .ok ((List.range' 2 (idx - 1)).foldl
    (fun acc k => (acc + (cells.getD k default).share) % 256) 1)

namespace Grid

/-- Grid::get_placement_percent: the column loop runs first, then the row
loop; each returns a u8 cumulative offset starting from 1. -/
def get_placement_percent (g : Grid) (column row : Nat) : Outcome (Nat × Nat) :=
  match placementOffset g.columns column with
  | .panicked => .panicked
  | .ok x =>
    match placementOffset g.rows row with
    | .panicked => .panicked
    | .ok y => .ok (x, y)

/-- Grid::get_placement_chars: converts the placement percents to character
coordinates. -/
def get_placement_chars (g : Grid) (column row : Nat) : Outcome (Nat × Nat) :=
  match g.get_placement_percent column row with
  | .panicked => .panicked
  | .ok (x, y) => .ok (g.percent_to_char_width x, g.percent_to_char_height y)

/-- Grid::height builder method: `100 / self.height_` is a u8 division that
panics when the new height is 0; otherwise the row vector is rebuilt with
equal non-pinned shares. -/
def height (g : Grid) (h : Nat) : Outcome Grid :=
  if h = 0 then .panicked
  else .ok { g with height_ := h, rows := List.replicate h ⟨100 / h, false⟩ }

/-- Grid::width builder method: `100 / self.width_` is a u8 division that
panics when the new width is 0; otherwise the column vector is rebuilt with
equal non-pinned shares. -/
def width (g : Grid) (w : Nat) : Outcome Grid :=
  if w = 0 then .panicked
  else .ok { g with width_ := w, columns := List.replicate w ⟨100 / w, false⟩ }

end Grid

/-- Modelled from the spec: the typed error taxonomy of spec section 7.
Missing from src/: the source code defines no error type at all; this
inductive exists only to state the spec's claimed contract for comparison. -/
inductive LayoutError where
  | invalidLength
  | indexOutOfRange
deriving DecidableEq, Repr

/-- Modelled from the spec: the redistribution pass of section 4.1 as the
spec words it, with a fully pinned axis accepted as-is.  Missing from src/:
the source has no such acceptance branch. -/
def redistributeSpec (cells : List GridCell) : List GridCell :=
  if flexCount cells = 0 then cells
  else cells.map fun c =>
    if c.pinned then c else ⟨(100 - pinnedSum cells) / flexCount cells, false⟩

/-- Modelled from the spec: `resize(length)` on the row axis returning the
typed error InvalidLength on a zero length (spec sections 4.1 and 7).
Missing from src/: the source builder panics instead of returning an error. -/
def resizeRowsSpec (g : Grid) (len : Nat) : Except LayoutError Grid :=
  if len = 0 then .error .invalidLength
  else .ok { g with height_ := len, rows := List.replicate len ⟨100 / len, false⟩ }

/-- Modelled from the spec: `configure(index, percent)` on the column axis
returning the typed error IndexOutOfRange for an index beyond the axis
length (spec sections 4.1 and 7).  Missing from src/: the source panics. -/
def columnConfigureSpec (g : Grid) (col percent : Nat) : Except LayoutError Grid :=
  if col < g.columns.length then
    .ok { g with columns := redistributeSpec (g.columns.set col ⟨percent, true⟩) }
  else .error .indexOutOfRange

/-- Modelled from the spec: get_placement_percent with genuinely 1-based
columns and rows, reading the share of 1-based index j at vector position
j - 1 (spec section 4.2: offset 1 + sum of the shares of columns 2..column). -/
def placementPercentSpec (g : Grid) (column row : Nat) : Nat × Nat :=
  (1 + ((List.range' 2 (column - 1)).map
      (fun j => (g.columns.getD (j - 1) default).share)).sum,
   1 + ((List.range' 2 (row - 1)).map
      (fun j => (g.rows.getD (j - 1) default).share)).sum)

/-- The grid of the source's own tests: builder().width(10).height(5),
set_width_chars(150), set_height_chars(36). -/
def grid10 : Grid :=
  { columns := List.replicate 10 ⟨10, false⟩
    rows := List.replicate 5 ⟨20, false⟩
    height_ := 5, height_chars := 36, width_ := 10, width_chars := 150 }

/-- A 1x1 grid with a 20x20 character screen. -/
def grid11 : Grid :=
  { columns := [⟨100, false⟩], rows := [⟨100, false⟩]
    height_ := 1, height_chars := 20, width_ := 1, width_chars := 20 }

/-- A 1x1 grid whose screen is 420 characters wide. -/
def g420 : Grid :=
  { columns := [⟨100, false⟩], rows := [⟨100, false⟩]
    height_ := 1, height_chars := 100, width_ := 1, width_chars := 420 }

/-- builder().width(4).height(1): four equal 25 percent columns. -/
def gridW4 : Grid :=
  { columns := List.replicate 4 ⟨25, false⟩, rows := [⟨100, false⟩]
    height_ := 1, height_chars := 24, width_ := 4, width_chars := 80 }

/-- gridW4 after column_configure(3, 40): shares 20, 20, 20 and a pinned 40. -/
def gC2 : Grid :=
  { columns := [⟨20, false⟩, ⟨20, false⟩, ⟨20, false⟩, ⟨40, true⟩]
    rows := [⟨100, false⟩]
    height_ := 1, height_chars := 24, width_ := 4, width_chars := 80 }

/-- A 3x2 grid used as a configure witness. -/
def gW : Grid :=
  { columns := [⟨33, false⟩, ⟨33, false⟩, ⟨33, false⟩]
    rows := [⟨50, false⟩, ⟨50, false⟩]
    height_ := 2, height_chars := 24, width_ := 3, width_chars := 80 }

/-- gW after column_configure(0, 30). -/
def gWres : Grid :=
  { columns := [⟨30, true⟩, ⟨35, false⟩, ⟨35, false⟩]
    rows := [⟨50, false⟩, ⟨50, false⟩]
    height_ := 2, height_chars := 24, width_ := 3, width_chars := 80 }

/-- A grid whose row axis is not a fixed point of redistribution. -/
def gBad : Grid :=
  { columns := [⟨50, false⟩, ⟨50, false⟩]
    rows := [⟨5, false⟩, ⟨10, false⟩]
    height_ := 2, height_chars := 24, width_ := 2, width_chars := 80 }

/-- gBad after column_configure(0, 30): the row shares were rewritten too. -/
def gBadRes : Grid :=
  { columns := [⟨30, true⟩, ⟨70, false⟩]
    rows := [⟨50, false⟩, ⟨50, false⟩]
    height_ := 2, height_chars := 24, width_ := 2, width_chars := 80 }

/-- A grid whose single row is pinned (a fully pinned row axis). -/
def gPinned : Grid :=
  { columns := [⟨100, false⟩], rows := [⟨50, true⟩]
    height_ := 1, height_chars := 24, width_ := 1, width_chars := 80 }

/-- The default 5x5 grid shape with an 80x24 character screen. -/
def gDef : Grid :=
  { columns := List.replicate 5 ⟨20, false⟩
    rows := List.replicate 5 ⟨20, false⟩
    height_ := 5, height_chars := 24, width_ := 5, width_chars := 80 }

/-- A grid with one pinned column so that pinning a second one overflows 100. -/
def gOver : Grid :=
  { columns := [⟨50, true⟩, ⟨10, false⟩, ⟨10, false⟩], rows := [⟨100, false⟩]
    height_ := 1, height_chars := 24, width_ := 3, width_chars := 80 }

section HelperLemmas

lemma wsub_le (a b : Nat) : wsub a b ≤ 255 := by
  unfold wsub; omega

lemma wsub_int (a b : Nat) (ha : a ≤ 255) (hb : b ≤ 255) :
    (wsub a b : Int) = ((a : Int) - b) % 256 := by
  unfold wsub; omega

lemma pinnedSum_cons_pinned (c : GridCell) (t : List GridCell) (h : c.pinned = true) :
    pinnedSum (c :: t) = c.share + pinnedSum t := by
  simp [pinnedSum, List.filter_cons, h]

lemma pinnedSum_cons_flex (c : GridCell) (t : List GridCell) (h : c.pinned = false) :
    pinnedSum (c :: t) = pinnedSum t := by
  simp [pinnedSum, List.filter_cons, h]

lemma pinnedFold_int (cells : List GridCell) :
    ∀ a : Nat, a ≤ 255 → (∀ c ∈ cells, c.pinned = true → c.share ≤ 255) →
      ((List.foldl (fun acc c => if c.pinned then wsub acc c.share else acc) a cells : Nat) : Int)
          = ((a : Int) - pinnedSum cells) % 256 ∧
        List.foldl (fun acc c => if c.pinned then wsub acc c.share else acc) a cells ≤ 255 := by
  induction cells with
  | nil =>
    intro a ha _
    refine ⟨?_, by simpa using ha⟩
    simp only [List.foldl_nil, pinnedSum, List.filter_nil, List.map_nil, List.sum_nil]
    omega
  | cons c t ih =>
    intro a ha hsh
    by_cases hc : c.pinned
    · have hcs : c.share ≤ 255 := hsh c (by simp) hc
      have h1 := ih (wsub a c.share) (wsub_le _ _)
        (fun d hd hp => hsh d (List.mem_cons_of_mem _ hd) hp)
      rw [List.foldl_cons, if_pos hc]
      refine ⟨?_, h1.2⟩
      rw [h1.1, wsub_int a c.share ha hcs, pinnedSum_cons_pinned c t hc]
      push_cast
      omega
    · have hcb : c.pinned = false := by simpa using hc
      have h1 := ih a ha (fun d hd hp => hsh d (List.mem_cons_of_mem _ hd) hp)
      rw [List.foldl_cons, if_neg hc, pinnedSum_cons_flex c t hcb]
      exact h1

lemma pinnedSubFold_int (cells : List GridCell)
    (hsh : ∀ c ∈ cells, c.pinned = true → c.share ≤ 255) :
    (pinnedSubFold cells : Int) = (100 - (pinnedSum cells : Int)) % 256 :=
  (pinnedFold_int cells 100 (by omega) hsh).1

lemma recalcAxis_eq_ok (cells : List GridCell) (h : flexCount cells % 256 ≠ 0) :
    recalcAxis cells = .ok (cells.map fun c =>
      if c.pinned then c
      else ⟨pinnedSubFold cells / (flexCount cells % 256), false⟩) := by
  unfold recalcAxis
  rw [if_neg h]

lemma recalcAxis_ok_inv {cells l : List GridCell} (h : recalcAxis cells = .ok l) :
    flexCount cells % 256 ≠ 0 ∧
      l = cells.map fun c =>
        if c.pinned then c
        else ⟨pinnedSubFold cells / (flexCount cells % 256), false⟩ := by
  unfold recalcAxis at h
  split at h
  · exact absurd h (by simp)
  · injection h with h
    exact ⟨by assumption, h.symm⟩

lemma recalcAxis_getElem?_pinned {cells l : List GridCell} (h : recalcAxis cells = .ok l)
    {i : Nat} {s : Nat} (hi : cells[i]? = some ⟨s, true⟩) : l[i]? = some ⟨s, true⟩ := by
  obtain ⟨-, rfl⟩ := recalcAxis_ok_inv h
  rw [List.getElem?_map, hi]
  rfl

lemma recalcAxis_getElem?_flex {cells l : List GridCell} (h : recalcAxis cells = .ok l)
    {i : Nat} {s : Nat} (hi : cells[i]? = some ⟨s, false⟩) :
    l[i]? = some ⟨pinnedSubFold cells / (flexCount cells % 256), false⟩ := by
  obtain ⟨-, rfl⟩ := recalcAxis_ok_inv h
  rw [List.getElem?_map, hi]
  rfl

lemma recalculate_ok_inv {g g' : Grid} (h : Grid.recalculate g = .ok g') :
    recalcAxis g.rows = .ok g'.rows ∧ recalcAxis g.columns = .ok g'.columns ∧
      g'.height_ = g.height_ ∧ g'.height_chars = g.height_chars ∧
      g'.width_ = g.width_ ∧ g'.width_chars = g.width_chars := by
  unfold Grid.recalculate at h
  cases hr : recalcAxis g.rows with
  | panicked => rw [hr] at h; simp at h
  | ok rows' =>
    rw [hr] at h
    cases hc : recalcAxis g.columns with
    | panicked => rw [hc] at h; simp at h
    | ok cols' =>
      rw [hc] at h
      injection h with h
      subst h
      simp_all

lemma column_configure_ok_inv {g g' : Grid} {col p : Nat}
    (h : Grid.column_configure g col p = .ok g') :
    col < g.columns.length ∧
      Grid.recalculate { g with columns := g.columns.set col ⟨p, true⟩ } = .ok g' := by
  unfold Grid.column_configure at h
  split at h
  · exact ⟨by assumption, h⟩
  · simp at h

lemma row_configure_ok_inv {g g' : Grid} {row p : Nat}
    (h : Grid.row_configure g row p = .ok g') :
    row < g.rows.length ∧
      Grid.recalculate { g with rows := g.rows.set row ⟨p, true⟩ } = .ok g' := by
  unfold Grid.row_configure at h
  split at h
  · exact ⟨by assumption, h⟩
  · simp at h

lemma waddFold_eq (f : Nat → Nat) (l : List Nat) :
    ∀ a : Nat, List.foldl (fun acc k => (acc + f k) % 256) (a % 256) l
      = (a + (l.map f).sum) % 256 := by
  induction l with
  | nil => intro a; simp
  | cons s t ih =>
    intro a
    rw [List.foldl_cons]
    have h1 : (a % 256 + f s) % 256 = (a + f s) % 256 := by omega
    rw [h1, ih (a + f s), List.map_cons, List.sum_cons]
    omega

lemma placementOffset_ok (cells : List GridCell) (idx : Nat)
    (h : ¬(2 ≤ idx ∧ cells.length ≤ idx)) :
    placementOffset cells idx = .ok
      ((1 + ((List.range' 2 (idx - 1)).map fun k => (cells.getD k default).share).sum) % 256) := by
  unfold placementOffset
  rw [if_neg h]
  congr 1
  have h1 : (1 : Nat) = 1 % 256 := rfl
  rw [h1, waddFold_eq (fun k => (cells.getD k default).share) (List.range' 2 (idx - 1)) 1]

lemma placementOffset_panicked (cells : List GridCell) (idx : Nat)
    (h : 2 ≤ idx) (h2 : cells.length ≤ idx) :
    placementOffset cells idx = .panicked := by
  unfold placementOffset
  rw [if_pos ⟨h, h2⟩]

lemma sum_map_const {α : Type} (l : List α) (e : Nat) :
    (l.map fun _ => e).sum = l.length * e := by
  induction l with
  | nil => simp
  | cons a t ih => simp [ih, Nat.succ_mul]; omega

end HelperLemmas

/-- C1: Floor-and-drop redistribution.  For an axis with exactly one pinned
cell at percent P ≤ 100 (written as pre ++ pinned ++ post with pre and post
all non-pinned) and length N = pre.length + post.length + 1 between 2 and
255 (axis lengths come from u8 resize arguments), the redistribution pass
succeeds, every non-pinned cell receives exactly
(100 - P) / (N - 1) (integer floor division, the remainder going to no
cell), the pinned cell is untouched, and the shares sum to
P + (N - 1) * ((100 - P) / (N - 1)). -/
theorem c1_floor_and_drop (pre post : List GridCell) (P : Nat)
    (hpre : ∀ c ∈ pre, c.pinned = false) (hpost : ∀ c ∈ post, c.pinned = false)
    (hP : P ≤ 100) (hN1 : 1 ≤ pre.length + post.length)
    (hN255 : pre.length + post.length ≤ 254) :
    recalcAxis (pre ++ ⟨P, true⟩ :: post) = .ok
      (pre.map (fun _ => ⟨(100 - P) / (pre.length + post.length), false⟩) ++
        ⟨P, true⟩ :: post.map (fun _ => ⟨(100 - P) / (pre.length + post.length), false⟩)) ∧
    sumShares
      (pre.map (fun _ => (⟨(100 - P) / (pre.length + post.length), false⟩ : GridCell)) ++
        ⟨P, true⟩ :: post.map (fun _ => ⟨(100 - P) / (pre.length + post.length), false⟩))
      = P + (pre.length + post.length) * ((100 - P) / (pre.length + post.length)) := by
  have hflex : flexCount (pre ++ ⟨P, true⟩ :: post) = pre.length + post.length := by
    unfold flexCount
    rw [List.countP_append, List.countP_cons]
    have hl : ∀ l : List GridCell, (∀ c ∈ l, c.pinned = false) →
        l.countP (fun c => !c.pinned) = l.length := by
      intro l hl
      apply List.countP_eq_length.mpr
      intro c hc
      simp [hl c hc]
    rw [hl pre hpre, hl post hpost]
    simp
  have hflexmod : flexCount (pre ++ ⟨P, true⟩ :: post) % 256 = pre.length + post.length := by
    rw [hflex]
    omega
  have hsum : pinnedSum (pre ++ ⟨P, true⟩ :: post) = P := by
    unfold pinnedSum
    rw [List.filter_append, List.filter_cons]
    have h1 : pre.filter (fun c => c.pinned) = [] := by
      rw [List.filter_eq_nil_iff]
      intro c hc
      simp [hpre c hc]
    have h2 : post.filter (fun c => c.pinned) = [] := by
      rw [List.filter_eq_nil_iff]
      intro c hc
      simp [hpost c hc]
    rw [h1, h2]
    simp
  have hshares : ∀ c ∈ pre ++ ⟨P, true⟩ :: post, c.pinned = true → c.share ≤ 255 := by
    intro c hc hp
    rcases List.mem_append.mp hc with h | h
    · rw [hpre c h] at hp
      cases hp
    · rcases List.mem_cons.mp h with h | h
      · rw [h]
        show P ≤ 255
        omega
      · rw [hpost c h] at hp
        cases hp
  have hfold : pinnedSubFold (pre ++ ⟨P, true⟩ :: post) = 100 - P := by
    have h := pinnedSubFold_int _ hshares
    rw [hsum] at h
    omega
  constructor
  · rw [recalcAxis_eq_ok _ (by rw [hflexmod]; omega)]
    rw [List.map_append, List.map_cons]
    have hm1 : pre.map (fun c =>
          if c.pinned then c
          else (⟨pinnedSubFold (pre ++ ⟨P, true⟩ :: post) /
            (flexCount (pre ++ ⟨P, true⟩ :: post) % 256), false⟩ : GridCell))
        = pre.map fun _ => ⟨(100 - P) / (pre.length + post.length), false⟩ := by
      apply List.map_congr_left
      intro c hc
      rw [if_neg (by simp [hpre c hc]), hfold, hflexmod]
    have hm2 : post.map (fun c =>
          if c.pinned then c
          else (⟨pinnedSubFold (pre ++ ⟨P, true⟩ :: post) /
            (flexCount (pre ++ ⟨P, true⟩ :: post) % 256), false⟩ : GridCell))
        = post.map fun _ => ⟨(100 - P) / (pre.length + post.length), false⟩ := by
      apply List.map_congr_left
      intro c hc
      rw [if_neg (by simp [hpost c hc]), hfold, hflexmod]
    rw [hm1, hm2, if_pos rfl]
  · unfold sumShares
    rw [List.map_append, List.map_cons, List.sum_append, List.sum_cons,
      List.map_map, List.map_map]
    have hc1 : ((fun c : GridCell => c.share) ∘
          (fun _ : GridCell => (⟨(100 - P) / (pre.length + post.length), false⟩ : GridCell)))
        = fun _ : GridCell => (100 - P) / (pre.length + post.length) := rfl
    rw [hc1, sum_map_const, sum_map_const]
    have : (⟨P, true⟩ : GridCell).share = P := rfl
    rw [this]
    ring

/-- Witness for C1: axis with shares 20, 20, pinned 30, 20; the three flex
cells each get 70 / 3 = 23 and the total is 99, strictly short of 100. -/
theorem c1_floor_and_drop_witness :
    recalcAxis [⟨20, false⟩, ⟨20, false⟩, ⟨30, true⟩, ⟨20, false⟩]
      = .ok [⟨23, false⟩, ⟨23, false⟩, ⟨30, true⟩, ⟨23, false⟩] ∧
    sumShares [⟨23, false⟩, ⟨23, false⟩, ⟨30, true⟩, ⟨23, false⟩] = 99 := by
  have h := c1_floor_and_drop [⟨20, false⟩, ⟨20, false⟩] [⟨20, false⟩] 30
    (by decide) (by decide) (by decide) (by decide) (by decide)
  exact ⟨by simpa using h.1, by simpa using h.2⟩

/-- C2 counterexample: the claim computes percent_x as 1 plus the shares of
1-based columns 2..column.  On gC2 (shares 20, 20, 20, pinned 40, reachable
as gridW4 after column_configure(3, 40)) that reading predicts an x offset
of 1 + 20 + 20 = 41 for column 3, but the code reads vector positions 2 and
3 and returns 1 + 20 + 40 = 61. -/
theorem c2_counterexample :
    Grid.get_placement_percent gC2 3 1 = .ok (61, 1) ∧
    placementPercentSpec gC2 3 1 = (41, 1) ∧
    Grid.column_configure gridW4 3 40 = .ok gC2 := by decide

/-- C2 amended: get_placement_percent returns 1 plus the sum (u8 wrapping)
of the shares stored at vector positions 2..=column — one position past the
1-based reading — and symmetrically for rows; the concrete placement values
of the claim's 10x5 scenario hold exactly as stated. -/
theorem c2_amended (g : Grid) (column row : Nat)
    (hc : ¬(2 ≤ column ∧ g.columns.length ≤ column))
    (hr : ¬(2 ≤ row ∧ g.rows.length ≤ row)) :
    Grid.get_placement_percent g column row = .ok
      ((1 + ((List.range' 2 (column - 1)).map fun k => (g.columns.getD k default).share).sum) % 256,
       (1 + ((List.range' 2 (row - 1)).map fun k => (g.rows.getD k default).share).sum) % 256) ∧
    Grid.get_placement_percent grid10 1 2 = .ok (1, 21) ∧
    Grid.get_placement_percent grid10 2 3 = .ok (11, 41) ∧
    Grid.get_placement_chars grid10 1 2 = .ok (1, 7) ∧
    Grid.get_placement_chars grid10 2 3 = .ok (16, 14) := by
  refine ⟨?_, by decide, by decide, by decide, by decide⟩
  unfold Grid.get_placement_percent
  rw [placementOffset_ok g.columns column hc, placementOffset_ok g.rows row hr]

/-- Witness for C2 amended at the claim's own scenario (column 2, row 3 of
the 10x5 grid). -/
theorem c2_amended_witness :
    Grid.get_placement_percent grid10 2 3 = .ok
      ((1 + ((List.range' 2 (2 - 1)).map fun k => (grid10.columns.getD k default).share).sum) % 256,
       (1 + ((List.range' 2 (3 - 1)).map fun k => (grid10.rows.getD k default).share).sum) % 256) :=
  (c2_amended grid10 2 3 (by decide) (by decide)).1

/-- C3 counterexample: with width_chars = 420 and percent = 15 the f32
computation of percent_to_char_width returns 62, while the claimed formula
floor(width_chars * percent / 100) gives 63 (420 * 15 / 100 = 63 exactly;
the f32 rounding of 420 / 100 falls just below 4.2 and the truncation drops
to 62). -/
theorem c3_counterexample :
    Grid.percent_to_char_width g420 15 = 62 ∧ 420 * 15 / 100 = 63 := by decide

/-- C3 amended: the conversion truncates the exact f32 computation
fl(fl(width_chars / 100) * percent) and clamps the result up to 1, so it
never returns 0 for any grid and any percent; it agrees with the floor
semantics at the claim's listed points for width_chars = 150 (percent 1, 25,
50, 100 give 1, 37, 75, 150), but not at every input. -/
theorem c3_amended :
    (∀ (g : Grid) (p : Nat),
      1 ≤ Grid.percent_to_char_width g p ∧ 1 ≤ Grid.percent_to_char_height g p) ∧
    Grid.percent_to_char_width grid10 1 = 1 ∧
    Grid.percent_to_char_width grid10 25 = 37 ∧
    Grid.percent_to_char_width grid10 50 = 75 ∧
    Grid.percent_to_char_width grid10 100 = 150 := by
  have hmin : ∀ n : Nat, 1 ≤ if n = 0 then 1 else n := by
    intro n
    split <;> omega
  refine ⟨fun g p => ⟨?_, ?_⟩, by decide, by decide, by decide, by decide⟩
  · simp only [Grid.percent_to_char_width]
    exact hmin _
  · simp only [Grid.percent_to_char_height]
    exact hmin _

lemma column_configure_pins {g g' : Grid} {i p : Nat}
    (h : Grid.column_configure g i p = .ok g') : g'.columns[i]? = some ⟨p, true⟩ := by
  obtain ⟨hi, hrec⟩ := column_configure_ok_inv h
  obtain ⟨-, hcols, -⟩ := recalculate_ok_inv hrec
  apply recalcAxis_getElem?_pinned hcols
  exact List.getElem?_set_self hi

lemma row_configure_pins {g g' : Grid} {i p : Nat}
    (h : Grid.row_configure g i p = .ok g') : g'.rows[i]? = some ⟨p, true⟩ := by
  obtain ⟨hi, hrec⟩ := row_configure_ok_inv h
  obtain ⟨hrows, -, -⟩ := recalculate_ok_inv hrec
  apply recalcAxis_getElem?_pinned hrows
  exact List.getElem?_set_self hi

lemma column_configure_keeps_pinned_col {g g' : Grid} {j q i : Nat} {s : Nat} (hne : j ≠ i)
    (h : Grid.column_configure g j q = .ok g') (hi : g.columns[i]? = some ⟨s, true⟩) :
    g'.columns[i]? = some ⟨s, true⟩ := by
  obtain ⟨hj, hrec⟩ := column_configure_ok_inv h
  obtain ⟨-, hcols, -⟩ := recalculate_ok_inv hrec
  apply recalcAxis_getElem?_pinned hcols
  rw [List.getElem?_set_ne hne]
  exact hi

lemma row_configure_keeps_pinned_col {g g' : Grid} {j q i : Nat} {s : Nat}
    (h : Grid.row_configure g j q = .ok g') (hi : g.columns[i]? = some ⟨s, true⟩) :
    g'.columns[i]? = some ⟨s, true⟩ := by
  obtain ⟨hj, hrec⟩ := row_configure_ok_inv h
  obtain ⟨-, hcols, -⟩ := recalculate_ok_inv hrec
  exact recalcAxis_getElem?_pinned hcols hi

lemma row_configure_keeps_pinned_row {g g' : Grid} {j q i : Nat} {s : Nat} (hne : j ≠ i)
    (h : Grid.row_configure g j q = .ok g') (hi : g.rows[i]? = some ⟨s, true⟩) :
    g'.rows[i]? = some ⟨s, true⟩ := by
  obtain ⟨hj, hrec⟩ := row_configure_ok_inv h
  obtain ⟨hrows, -, -⟩ := recalculate_ok_inv hrec
  apply recalcAxis_getElem?_pinned hrows
  rw [List.getElem?_set_ne hne]
  exact hi

lemma column_configure_keeps_pinned_row {g g' : Grid} {j q i : Nat} {s : Nat}
    (h : Grid.column_configure g j q = .ok g') (hi : g.rows[i]? = some ⟨s, true⟩) :
    g'.rows[i]? = some ⟨s, true⟩ := by
  obtain ⟨hj, hrec⟩ := column_configure_ok_inv h
  obtain ⟨hrows, -, -⟩ := recalculate_ok_inv hrec
  exact recalcAxis_getElem?_pinned hrows hi

/-- C4: Pinned-cell invariant.  After a successful column_configure(i, p)
the cell at index i holds share p with the pinned flag set, and any later
successful configure of a different index — on either axis — leaves that
cell's share and flag untouched; symmetrically for row_configure. -/
theorem c4_pinned_invariant (g g' : Grid) (i p : Nat)
    (h : Grid.column_configure g i p = .ok g') :
    g'.columns[i]? = some ⟨p, true⟩ ∧
    (∀ j q g'', j ≠ i → Grid.column_configure g' j q = .ok g'' →
      g''.columns[i]? = some ⟨p, true⟩) ∧
    (∀ j q g'', Grid.row_configure g' j q = .ok g'' →
      g''.columns[i]? = some ⟨p, true⟩) ∧
    (∀ g2 g2' i2 p2, Grid.row_configure g2 i2 p2 = .ok g2' →
      g2'.rows[i2]? = some ⟨p2, true⟩ ∧
      (∀ j q g3, j ≠ i2 → Grid.row_configure g2' j q = .ok g3 →
        g3.rows[i2]? = some ⟨p2, true⟩) ∧
      (∀ j q g3, Grid.column_configure g2' j q = .ok g3 →
        g3.rows[i2]? = some ⟨p2, true⟩)) := by
  have hpin := column_configure_pins h
  refine ⟨hpin, ?_, ?_, ?_⟩
  · intro j q g'' hne h2
    exact column_configure_keeps_pinned_col hne h2 hpin
  · intro j q g'' h2
    exact row_configure_keeps_pinned_col h2 hpin
  · intro g2 g2' i2 p2 h2
    have hpin2 := row_configure_pins h2
    refine ⟨hpin2, ?_, ?_⟩
    · intro j q g3 hne h3
      exact row_configure_keeps_pinned_row hne h3 hpin2
    · intro j q g3 h3
      exact column_configure_keeps_pinned_row h3 hpin2

/-- Witness for C4: configuring column 0 of gW to 30 yields gWres, whose
cell 0 is pinned at 30. -/
theorem c4_pinned_invariant_witness :
    Grid.column_configure gW 0 30 = .ok gWres ∧ gWres.columns[0]? = some ⟨30, true⟩ := by
  have h := c4_pinned_invariant gW gWres 0 30 (by decide)
  exact ⟨by decide, h.1⟩

/-- C5 counterexample: on gBad, whose row shares 5 and 10 are not a fixed
point of redistribution, column_configure(0, 30) succeeds but rewrites the
row axis to two 50 percent cells — the rows axis is not left unchanged. -/
theorem c5_counterexample :
    Grid.column_configure gBad 0 30 = .ok gBadRes ∧ gBadRes.rows ≠ gBad.rows := by decide

/-- C5 amended: column_configure triggers the redistribution pass over both
axes.  The rows of the result are exactly recalcAxis of the old rows (so
pinned row cells survive but non-pinned row shares are recomputed, and the
rows axis changes whenever it was not already a fixed point); symmetrically
row_configure reruns the pass over the columns; and the call's success does
depend on the rows axis: with every row pinned, column_configure panics
outright. -/
theorem c5_amended (g g' : Grid) (i p : Nat)
    (h : Grid.column_configure g i p = .ok g') :
    recalcAxis g.rows = .ok g'.rows ∧
    (∀ (j s : Nat), g.rows[j]? = some (⟨s, true⟩ : GridCell) →
      g'.rows[j]? = some (⟨s, true⟩ : GridCell)) ∧
    (∀ g2 g2' j q, Grid.row_configure g2 j q = .ok g2' →
      recalcAxis g2.columns = .ok g2'.columns) ∧
    (∀ g3 j2 q2, (∀ c ∈ g3.rows, c.pinned = true) →
      Grid.column_configure g3 j2 q2 = .panicked) := by
  obtain ⟨hi, hrec⟩ := column_configure_ok_inv h
  obtain ⟨hrows, -, -⟩ := recalculate_ok_inv hrec
  have hrows2 : recalcAxis g.rows = .ok g'.rows := hrows
  refine ⟨hrows2, ?_, ?_, ?_⟩
  · intro j s hj
    exact recalcAxis_getElem?_pinned hrows2 hj
  · intro g2 g2' j q h2
    obtain ⟨hj, hrec2⟩ := row_configure_ok_inv h2
    obtain ⟨-, hcols2, -⟩ := recalculate_ok_inv hrec2
    exact hcols2
  · intro g3 j2 q2 hall
    have hflex0 : flexCount g3.rows = 0 := by
      unfold flexCount
      rw [List.countP_eq_zero]
      intro c hc
      simp [hall c hc]
    have hax : recalcAxis g3.rows = .panicked := by
      unfold recalcAxis
      rw [if_pos (by rw [hflex0])]
    unfold Grid.column_configure
    split
    · unfold Grid.recalculate
      rw [show ({ g3 with columns := g3.columns.set j2 ⟨q2, true⟩ } : Grid).rows
            = g3.rows from rfl, hax]
    · rfl

/-- Witness for C5 amended at gBad: the successful configure rewrote the
rows to recalcAxis of the old rows. -/
theorem c5_amended_witness :
    Grid.column_configure gBad 0 30 = .ok gBadRes ∧ recalcAxis gBad.rows = .ok gBadRes.rows :=
  ⟨by decide, (c5_amended gBad gBadRes 0 30 (by decide)).1⟩

/-- C6 counterexample: on the fully pinned one-cell axis with share 50 (sum
50, not 100) the redistribution pass does not complete and leave the cell
unchanged — it panics with a division by zero (`row_p / rows as u8` with a
zero flex count), so it is a hard failure, not a warning. -/
theorem c6_counterexample :
    recalcAxis [⟨50, true⟩] = .panicked ∧
    recalcAxis [⟨50, true⟩] ≠ .ok [⟨50, true⟩] := by decide

/-- C6 amended: an axis in which every cell is pinned makes the
redistribution pass abort with a division-by-zero panic, whatever the pinned
shares sum to; at the grid level, recalculate on a grid whose rows are all
pinned panics the same way.  No cell is returned modified and no warning
path exists in the code. -/
theorem c6_amended (axis : List GridCell) (g : Grid)
    (h : ∀ c ∈ axis, c.pinned = true) (hg : ∀ c ∈ g.rows, c.pinned = true) :
    recalcAxis axis = .panicked ∧ Grid.recalculate g = .panicked := by
  have hx : ∀ l : List GridCell, (∀ c ∈ l, c.pinned = true) → recalcAxis l = .panicked := by
    intro l hl
    have hflex0 : flexCount l = 0 := by
      unfold flexCount
      rw [List.countP_eq_zero]
      intro c hc
      simp [hl c hc]
    unfold recalcAxis
    rw [if_pos (by rw [hflex0])]
  refine ⟨hx axis h, ?_⟩
  unfold Grid.recalculate
  rw [hx g.rows hg]

/-- Witness for C6 amended: a fully pinned two-cell axis summing to 70, and
gPinned whose single row is pinned at 50. -/
theorem c6_amended_witness :
    recalcAxis [⟨30, true⟩, ⟨40, true⟩] = .panicked ∧ Grid.recalculate gPinned = .panicked :=
  c6_amended [⟨30, true⟩, ⟨40, true⟩] gPinned (by decide) (by decide)

lemma recalculate_eq_ok (g : Grid) (h1 : flexCount g.rows % 256 ≠ 0)
    (h2 : flexCount g.columns % 256 ≠ 0) :
    Grid.recalculate g = .ok { g with
      rows := g.rows.map fun c =>
        if c.pinned then c
        else ⟨pinnedSubFold g.rows / (flexCount g.rows % 256), false⟩,
      columns := g.columns.map fun c =>
        if c.pinned then c
        else ⟨pinnedSubFold g.columns / (flexCount g.columns % 256), false⟩ } := by
  unfold Grid.recalculate
  rw [recalcAxis_eq_ok g.rows h1, recalcAxis_eq_ok g.columns h2]

/-- C7: Over-allocation is accepted.  Pinning column i at percent p so that
the pinned shares sum past 100 is not rejected: as long as both axes keep at
least one flex cell (and have u8-sized lengths and shares), the call
completes, and every other non-pinned column receives the u8-wrapped
remaining percent — the two's-complement image of the negative value
100 - pinnedSum — floor-divided by the flex count. -/
theorem c7_overallocation (g : Grid) (i p : Nat)
    (hi : i < g.columns.length)
    (hlenC : g.columns.length ≤ 255)
    (hlenR : g.rows.length ≤ 255)
    (hflexC : 0 < flexCount (g.columns.set i ⟨p, true⟩))
    (hflexR : 0 < flexCount g.rows)
    (_hover : 100 < pinnedSum (g.columns.set i ⟨p, true⟩))
    (hsh : ∀ c ∈ g.columns, c.share ≤ 255) (hp : p ≤ 255) :
    ∃ g', Grid.column_configure g i p = .ok g' ∧
      ∀ (j s : Nat), j ≠ i → g.columns[j]? = some (⟨s, false⟩ : GridCell) →
        g'.columns[j]? = some
          (⟨(((100 : Int) - pinnedSum (g.columns.set i ⟨p, true⟩)) % 256).toNat
              / flexCount (g.columns.set i ⟨p, true⟩), false⟩ : GridCell) := by
  have hflexC255 : flexCount (g.columns.set i ⟨p, true⟩) ≤ 255 := by
    calc flexCount (g.columns.set i ⟨p, true⟩)
        ≤ (g.columns.set i ⟨p, true⟩).length := List.countP_le_length _
      _ = g.columns.length := List.length_set ..
      _ ≤ 255 := hlenC
  have hflexR255 : flexCount g.rows ≤ 255 :=
    le_trans (List.countP_le_length _) hlenR
  have hmodC : flexCount (g.columns.set i ⟨p, true⟩) % 256
      = flexCount (g.columns.set i ⟨p, true⟩) := Nat.mod_eq_of_lt (by omega)
  have hmodC0 : flexCount (g.columns.set i ⟨p, true⟩) % 256 ≠ 0 := by omega
  have hmodR0 : flexCount g.rows % 256 ≠ 0 := by
    rw [Nat.mod_eq_of_lt (by omega)]
    omega
  have hsh2 : ∀ c ∈ g.columns.set i ⟨p, true⟩, c.pinned = true → c.share ≤ 255 := by
    intro c hc _
    rcases List.mem_or_eq_of_mem_set hc with h1 | h1
    · exact hsh c h1
    · rw [h1]
      show p ≤ 255
      exact hp
  have hfold : pinnedSubFold (g.columns.set i ⟨p, true⟩)
      = (((100 : Int) - pinnedSum (g.columns.set i ⟨p, true⟩)) % 256).toNat := by
    have h1 := pinnedSubFold_int (g.columns.set i ⟨p, true⟩) hsh2
    omega
  refine ⟨{ g with
      rows := g.rows.map fun c =>
        if c.pinned then c
        else ⟨pinnedSubFold g.rows / (flexCount g.rows % 256), false⟩,
      columns := (g.columns.set i ⟨p, true⟩).map fun c =>
        if c.pinned then c
        else ⟨pinnedSubFold (g.columns.set i ⟨p, true⟩) /
          (flexCount (g.columns.set i ⟨p, true⟩) % 256), false⟩ }, ?_, ?_⟩
  · unfold Grid.column_configure
    rw [if_pos hi]
    exact recalculate_eq_ok { g with columns := g.columns.set i ⟨p, true⟩ } hmodR0 hmodC0
  · intro j s hne hj
    have hcell2j : (g.columns.set i ⟨p, true⟩)[j]? = some (⟨s, false⟩ : GridCell) := by
      rw [List.getElem?_set_ne (Ne.symm hne)]
      exact hj
    show ((g.columns.set i ⟨p, true⟩).map fun c =>
      if c.pinned then c
      else ⟨pinnedSubFold (g.columns.set i ⟨p, true⟩) /
        (flexCount (g.columns.set i ⟨p, true⟩) % 256), false⟩)[j]? = _
    rw [List.getElem?_map, hcell2j]
    simp only [Option.map_some']
    rw [if_neg (by simp), hfold, hmodC]

/-- Witness for C7: gOver has a column pinned at 50; pinning column 1 at 70
drives the pinned sum to 120 > 100 and the call still completes. -/
theorem c7_overallocation_witness :
    100 < pinnedSum (gOver.columns.set 1 ⟨70, true⟩) ∧
    ∃ g', Grid.column_configure gOver 1 70 = .ok g' ∧
      ∀ (j s : Nat), j ≠ 1 → gOver.columns[j]? = some (⟨s, false⟩ : GridCell) →
        g'.columns[j]? = some
          (⟨(((100 : Int) - pinnedSum (gOver.columns.set 1 ⟨70, true⟩)) % 256).toNat
              / flexCount (gOver.columns.set 1 ⟨70, true⟩), false⟩ : GridCell) :=
  ⟨by decide, c7_overallocation gOver 1 70 (by decide) (by decide) (by decide)
    (by decide) (by decide) (by decide) (by decide) (by decide)⟩

/-- C8 counterexample: resizing an axis to length 0 does not produce a typed
InvalidLength error — the source has no error type and the builder methods
return a plain Grid; the call dies in the `100 / 0` division, a panic.  The
typed behavior exists only in the spec model resizeRowsSpec. -/
theorem c8_counterexample :
    Grid.height gDef 0 = .panicked ∧ Grid.width gDef 0 = .panicked ∧
    resizeRowsSpec gDef 0 = .error .invalidLength :=
  ⟨by decide, by decide, rfl⟩

/-- C8 amended: resizing an axis to length 0 panics with a division by zero
(an abort, not a typed recoverable error — no error type exists in the
source), and the panic fires before the cell list is replaced; for every
length from 1 to 255 the cell list is rebuilt as that many non-pinned cells
each holding floor(100 / length). -/
theorem c8_amended (g : Grid) (len : Nat) (h1 : 1 ≤ len) (h2 : len ≤ 255) :
    Grid.height g 0 = .panicked ∧ Grid.width g 0 = .panicked ∧
    Grid.height g len
      = .ok { g with height_ := len, rows := List.replicate len ⟨100 / len, false⟩ } ∧
    Grid.width g len
      = .ok { g with width_ := len, columns := List.replicate len ⟨100 / len, false⟩ } := by
  refine ⟨?_, ?_, ?_, ?_⟩
  · unfold Grid.height
    rw [if_pos rfl]
  · unfold Grid.width
    rw [if_pos rfl]
  · unfold Grid.height
    rw [if_neg (by omega)]
  · unfold Grid.width
    rw [if_neg (by omega)]

/-- Witness for C8 amended at length 4 on the default 5x5 grid. -/
theorem c8_amended_witness :
    (1 : Nat) ≤ 4 ∧
    Grid.height gDef 4
      = .ok { gDef with height_ := 4, rows := List.replicate 4 ⟨100 / 4, false⟩ } :=
  ⟨by decide, (c8_amended gDef 4 (by decide) (by decide)).2.2.1⟩

/-- C9 counterexample: configuring column 7 of the default 5-column grid
does not return a typed IndexOutOfRange error — the source indexes the Vec
directly and panics (aborts).  The typed behavior exists only in the spec
model columnConfigureSpec. -/
theorem c9_counterexample :
    Grid.column_configure gDef 7 10 = .panicked ∧
    columnConfigureSpec gDef 7 10 = .error .indexOutOfRange :=
  ⟨by decide, rfl⟩

/-- C9 amended: a configure or direct chars query with an index at or past
the axis length, and a placement query with column ≥ max(2, length), abort
with an out-of-bounds (or, for placement percent sums, out-of-bounds
indexing) panic rather than returning a typed error; being panics, they
return no value at all, and the functional embedding shows no grid state is
produced by the failed call. -/
theorem c9_amended (g : Grid) (i j p : Nat)
    (hi : g.columns.length ≤ i) (hj : g.rows.length ≤ j) :
    Grid.column_configure g i p = .panicked ∧
    Grid.row_configure g j p = .panicked ∧
    Grid.get_column_chars g i = .panicked ∧
    Grid.get_row_chars g j = .panicked ∧
    (2 ≤ i → Grid.get_placement_percent g i 1 = .panicked) ∧
    (2 ≤ i → Grid.get_placement_chars g i 1 = .panicked) := by
  refine ⟨?_, ?_, ?_, ?_, ?_, ?_⟩
  · unfold Grid.column_configure
    rw [if_neg (by omega)]
  · unfold Grid.row_configure
    rw [if_neg (by omega)]
  · unfold Grid.get_column_chars
    rw [List.getElem?_eq_none hi]
  · unfold Grid.get_row_chars
    rw [List.getElem?_eq_none hj]
  · intro h2i
    unfold Grid.get_placement_percent
    rw [placementOffset_panicked g.columns i h2i hi]
  · intro h2i
    unfold Grid.get_placement_chars Grid.get_placement_percent
    rw [placementOffset_panicked g.columns i h2i hi]

/-- Witness for C9 amended at index 9 of the default 5x5 grid. -/
theorem c9_amended_witness :
    gDef.columns.length ≤ 9 ∧ Grid.column_configure gDef 9 5 = .panicked :=
  ⟨by decide, (c9_amended gDef 9 9 5 (by decide) (by decide)).1⟩

/-- C10 counterexample: on a 1x1 grid the largest documented-valid 1-based
column index is N = 1, and get_placement_percent(1, 1) does not read past
the vector or abort — the loop guard `c > 1` skips every access and the
call returns (1, 1). -/
theorem c10_counterexample :
    Grid.get_placement_percent grid11 1 1 = .ok (1, 1) ∧
    Grid.get_placement_chars grid11 1 1 = .ok (1, 1) := by decide

/-- C10 amended: for an axis of length N ≥ 2, get_placement_percent (and so
get_placement_chars) called with column = N reads vector position N and
panics, and symmetrically for row = number of rows; for in-bounds queries
with column ≥ 2 the x offset is 1 plus the (u8-wrapped) sum of the shares
at vector positions 2..=column — skipping position 1 and including the
queried column's own position. -/
theorem c10_amended (g : Grid) (c r : Nat)
    (hcols2 : 2 ≤ g.columns.length) (hrows2 : 2 ≤ g.rows.length)
    (_hc2 : 2 ≤ c) (hclt : c < g.columns.length) (hrlt : r < g.rows.length) :
    Grid.get_placement_percent g g.columns.length r = .panicked ∧
    Grid.get_placement_chars g g.columns.length r = .panicked ∧
    Grid.get_placement_percent g 1 g.rows.length = .panicked ∧
    Grid.get_placement_percent g c r = .ok
      ((1 + ((List.range' 2 (c - 1)).map fun k => (g.columns.getD k default).share).sum) % 256,
       (1 + ((List.range' 2 (r - 1)).map fun k => (g.rows.getD k default).share).sum) % 256) := by
  refine ⟨?_, ?_, ?_, ?_⟩
  · unfold Grid.get_placement_percent
    rw [placementOffset_panicked g.columns g.columns.length hcols2 (le_refl _)]
  · unfold Grid.get_placement_chars Grid.get_placement_percent
    rw [placementOffset_panicked g.columns g.columns.length hcols2 (le_refl _)]
  · unfold Grid.get_placement_percent
    rw [placementOffset_ok g.columns 1 (by omega),
      placementOffset_panicked g.rows g.rows.length hrows2 (le_refl _)]
  · unfold Grid.get_placement_percent
    rw [placementOffset_ok g.columns c (by omega), placementOffset_ok g.rows r (by omega)]

/-- Witness for C10 amended on the 10x5 grid: querying column 10 aborts. -/
theorem c10_amended_witness :
    2 ≤ grid10.columns.length ∧
    Grid.get_placement_percent grid10 grid10.columns.length 2 = .panicked :=
  ⟨by decide, (c10_amended grid10 3 2 (by decide) (by decide) (by decide)
    (by decide) (by decide)).1⟩
